import Mathlib

/-!
Shallow embedding of the `FilteringFlow` orchestration component of the
Sensor-Fusion repository
(`04-imu-lidar-gnss-fusion/src/lidar_localization/src/filtering/filtering_flow.cpp`),
together with the parts of its collaborators that the verified claims need.

Timestamps (C++ `double`) are modelled as rationals; the hard-coded tolerance
`0.05` is the exact rational `1/20`.  Channel buffers (C++ `std::deque`) are
modelled as lists consumed at the head (`front`/`pop_front`) and extended at
the tail (`push_back`).  Side-effecting member functions become pure functions
from the flow state to a new flow state plus a list of emitted output events
(publishes and diagnostic logs).

The `Filtering` fusion backend (scan-context initialization, ESKF
predict/correct) is not part of the available sources; its behaviour is kept
opaque through an environment of collaborator functions, with the small parts
the claims depend on modelled from the spec and marked as such.
-/

namespace SensorFusion

/-- A 3-vector with rational coordinates. -/
structure Vec3 where
  x : ℚ
  y : ℚ
  z : ℚ
deriving DecidableEq, Repr

/-- Difference of two 3-vectors. -/
def Vec3.sub (a b : Vec3) : Vec3 :=
  ⟨a.x - b.x, a.y - b.y, a.z - b.z⟩

/-- Squared Euclidean norm of a 3-vector.  The C++ source takes the square
root of this value (`Eigen .norm()`) before logging it; since the value is
used for diagnostic reporting only, we keep the (rational) square. -/
def Vec3.sqNorm (a : Vec3) : ℚ :=
  a.x * a.x + a.y * a.y + a.z * a.z

/-- A rigid transform (`Eigen::Matrix4f`): a rotation block, kept opaque as
three row vectors, and a translation block `block<3,1>(0,3)`. -/
structure Pose where
  row0 : Vec3
  row1 : Vec3
  row2 : Vec3
  position : Vec3
deriving DecidableEq, Repr

/-- `IMUData`: a raw or synced inertial measurement. -/
structure IMUData where
  time : ℚ
  linear_acceleration : Vec3
  angular_velocity : Vec3
deriving DecidableEq, Repr

/-- `CloudData`: a lidar scan.  The point payload is consumed only by external
collaborators (scan matching, publishing), so it is kept as an opaque handle. -/
structure CloudData where
  time : ℚ
  cloud : ℕ
deriving DecidableEq, Repr

/-- `PoseData` as produced by the `/synced_gnss` odometry subscriber: the
absolute pose sample, with pose and velocity. -/
structure PoseData where
  time : ℚ
  pose : Pose
  vel : Vec3
deriving DecidableEq, Repr

/-- The observable slice of the `Filtering` fusion backend's state: the
initialization flag (`has_inited_`, initialized to `false` as declared in
`imu_gnss_odo_filtering.hpp`), the filter clock (`GetTime()`), and the
nominal pose and velocity (`GetPose()` / `GetOdometry()`). -/
structure FilterState where
  has_inited : Bool
  time : ℚ
  pose : Pose
  vel : Vec3
deriving DecidableEq, Repr

/-- Result of the opaque ESKF `Correct` collaborator: the success verdict,
the correction-frame (laser) pose written through the output parameter, and
the corrected nominal pose and velocity. -/
structure ESKFCorrect where
  ok : Bool
  laser_pose : Pose
  pose : Pose
  vel : Vec3

/-- Environment of opaque collaborator behaviours (the `Filtering` backend's
scan-context initialization, ESKF propagation, and ESKF correction).  Their
codomains are constrained only where the spec pins them down. -/
structure Env where
  scanInit : CloudData → Vec3 → IMUData → Option Pose
  predict : FilterState → IMUData → Pose × Vec3
  correct : FilterState → IMUData → CloudData → ESKFCorrect

/-- Output events of one flow cycle: publishes and diagnostic logs, in
emission order. -/
inductive Event where
  | globalMap : Event
  | localMap : Event
  | fusedTF : ℚ → Event
  | fusedOdom : ℚ → Event
  | laserOdom : ℚ → Event
  | currentScan : Event
  | initDiagnostic : ℚ → Event
  | initFallback : Event
  | initDone : Event
deriving DecidableEq, Repr

/-- Recognizer for the initialization-completed event. -/
def isInitEvent : Event → Bool
  | Event.initDone => true
  | _ => false

/-- Number of initialization completions recorded in an event list. -/
def countInit (evs : List Event) : ℕ :=
  evs.countP isInitEvent

/-- The member state of `FilteringFlow`: the four channel buffers, the
`current_*` working copies, the calibration cache, the laser-pose slot and
the fusion backend state. -/
structure FlowState where
  imu_raw_data_buff : List IMUData
  cloud_data_buff : List CloudData
  gnss_data_buff : List PoseData
  imu_synced_data_buff : List IMUData
  current_imu_raw_data : IMUData
  current_cloud_data : CloudData
  current_gnss_data : PoseData
  current_imu_synced_data : IMUData
  laser_pose : Pose
  calibration_received : Bool
  lidar_to_imu : Pose
  filter : FilterState
deriving DecidableEq, Repr

/-- A state transition together with the events it emitted. -/
structure StepResult where
  state : FlowState
  events : List Event
deriving DecidableEq, Repr

/-- A validity verdict together with the mutated state. -/
structure ValidResult where
  ok : Bool
  state : FlowState
deriving DecidableEq, Repr

/-- `FilteringFlow::HasInited`: delegates to the backend's flag. -/
def HasInited (s : FlowState) : Bool :=
  s.filter.has_inited

/-- Modelled from the spec: `HasIMUData` (declared in `filtering_flow.hpp`,
body not in the available sources) reports whether the inertial-raw buffer is
non-empty; it guards every `front()`/`pop_front()` on that buffer. -/
def HasIMUData (s : FlowState) : Bool :=
  !s.imu_raw_data_buff.isEmpty

/-- Modelled from the spec: `HasLidarData` (declared in `filtering_flow.hpp`,
body not in the available sources) reports whether a full lidar triple is
available, i.e. the cloud, absolute-pose and synced-inertial buffers are all
non-empty; it guards the `front()` reads in `ValidLidarData`. -/
def HasLidarData (s : FlowState) : Bool :=
  !s.cloud_data_buff.isEmpty && !s.gnss_data_buff.isEmpty &&
    !s.imu_synced_data_buff.isEmpty

/-- `FilteringFlow::HasData`. -/
def HasData (s : FlowState) : Bool :=
  if !HasInited s then
    !(s.cloud_data_buff.isEmpty || s.gnss_data_buff.isEmpty ||
      s.imu_synced_data_buff.isEmpty)
  else
    !(s.imu_raw_data_buff.isEmpty &&
      (s.cloud_data_buff.isEmpty || s.gnss_data_buff.isEmpty ||
       s.imu_synced_data_buff.isEmpty))

/-- `FilteringFlow::ValidIMUData`: copies the raw-buffer front into
`current_imu_raw_data_`, pops it, and unconditionally returns `true`.
The empty-buffer case is unreachable in the flow (every call site is guarded
by `HasIMUData`; `front()` on an empty deque is undefined behaviour in C++)
and is modelled as a no-op. -/
def ValidIMUData (s : FlowState) : ValidResult :=
  match s.imu_raw_data_buff with
  | [] => ⟨true, s⟩
  | d :: rest =>
      ⟨true, { s with current_imu_raw_data := d, imu_raw_data_buff := rest }⟩

/-- `FilteringFlow::ValidLidarData`: reads the three synced-channel fronts
into the `current_*` slots, compares the cloud timestamp against the GNSS and
synced-inertial fronts with the hard-coded `±0.05 s` window, pops the single
offending front on violation (cloud if some companion is ahead, otherwise the
stale companion), and pops all three fronts when within tolerance.  The
unused `diff_filter_time` of the source is omitted.  The empty-buffer case is
unreachable (guarded by `HasData` / `HasLidarData`). -/
def ValidLidarData (s : FlowState) : ValidResult :=
  match s.cloud_data_buff, s.gnss_data_buff, s.imu_synced_data_buff with
  | c :: cs, g :: gs, i :: is' =>
      let s1 := { s with current_cloud_data := c, current_gnss_data := g,
                         current_imu_synced_data := i }
      let diff_gnss_time := c.time - g.time
      let diff_imu_time := c.time - i.time
      if diff_gnss_time < -(1/20) ∨ diff_imu_time < -(1/20) then
        ⟨false, { s1 with cloud_data_buff := cs }⟩
      else if diff_gnss_time > 1/20 then
        ⟨false, { s1 with gnss_data_buff := gs }⟩
      else if diff_imu_time > 1/20 then
        ⟨false, { s1 with imu_synced_data_buff := is' }⟩
      else
        ⟨true, { s1 with cloud_data_buff := cs, gnss_data_buff := gs,
                         imu_synced_data_buff := is' }⟩
  | _, _, _ => ⟨false, s⟩

/-- `FilteringFlow::InitCalibration`: the `static bool calibration_received`
cache together with the cached transform, modelled as flow-state fields; the
per-cycle lookup outcome is the caller-supplied `lookup`.  While the flag is
unset, a successful lookup stores the transform and sets the flag; once set,
the lookup is never consulted again. -/
def InitCalibration (lookup : Option Pose) (s : FlowState) : Bool × FlowState :=
  if s.calibration_received then
    (true, s)
  else
    match lookup with
    | some t => (true, { s with calibration_received := true, lidar_to_imu := t })
    | none => (false, s)

/-- Modelled from the spec: `Filtering::Init(pose, velocity, inertialSample)`
(implementation not in the available sources) seeds the nominal state from
the given pose and velocity, resets the internal clock to the seeding
sample's timestamp, and makes `HasInited` true. -/
def FilterState.seed (pose : Pose) (vel : Vec3) (imu : IMUData) : FilterState :=
  { has_inited := true, time := imu.time, pose := pose, vel := vel }

/-- Modelled from the spec: `Filtering::Update` / ESKF `Predict`
(implementation not in the available sources) integrates one inertial sample;
it fails, leaving the state untouched, exactly when the sample is older than
the filter's current clock, and otherwise advances the clock to the sample's
timestamp with the nominal pose and velocity produced by the opaque
propagation collaborator. -/
def FilterState.Update (env : Env) (f : FilterState) (imu : IMUData) :
    Bool × FilterState :=
  if imu.time < f.time then
    (false, f)
  else
    let pv := env.predict f imu
    (true, { f with time := imu.time, pose := pv.1, vel := pv.2 })

/-- The raw-buffer purge at the end of `InitLocalization`:
`while (HasIMUData() && imu_raw_data_buff_.front().time <
current_imu_synced_data_.time) imu_raw_data_buff_.pop_front();`. -/
def dropStaleIMU (t : ℚ) : List IMUData → List IMUData
  | [] => []
  | d :: rest => if d.time < t then dropStaleIMU t rest else d :: rest

/-- `FilteringFlow::InitLocalization`: seed the backend, primarily from the
scan-context query (opaque collaborator), computing the Euclidean deviation
from the GNSS position for the diagnostic log on success; on failure fall
back to seeding from the GNSS pose.  In both cases the seeding velocity is
the GNSS sample's velocity and the raw-inertial buffer is purged of samples
older than the synced-inertial seeding sample. -/
def InitLocalization (env : Env) (s : FlowState) : StepResult :=
  let init_vel := s.current_gnss_data.vel
  match env.scanInit s.current_cloud_data init_vel s.current_imu_synced_data with
  | some scan_pose =>
      let f := FilterState.seed scan_pose init_vel s.current_imu_synced_data
      let deviation :=
        Vec3.sqNorm (Vec3.sub scan_pose.position s.current_gnss_data.pose.position)
      ⟨{ s with filter := f,
                imu_raw_data_buff :=
                  dropStaleIMU s.current_imu_synced_data.time s.imu_raw_data_buff },
       [Event.initDiagnostic deviation, Event.initDone]⟩
  | none =>
      let f := FilterState.seed s.current_gnss_data.pose init_vel
                 s.current_imu_synced_data
      ⟨{ s with filter := f,
                imu_raw_data_buff :=
                  dropStaleIMU s.current_imu_synced_data.time s.imu_raw_data_buff },
       [Event.initFallback, Event.initDone]⟩

/-- `FilteringFlow::UpdateLocalization`: one ESKF propagation on
`current_imu_raw_data_`; on success publish the fused odometry (tf broadcast
followed by the odometry message, both stamped with the raw sample's time). -/
def UpdateLocalization (env : Env) (s : FlowState) : Bool × StepResult :=
  let r := FilterState.Update env s.filter s.current_imu_raw_data
  if r.1 then
    (true, ⟨{ s with filter := r.2 },
            [Event.fusedTF s.current_imu_raw_data.time,
             Event.fusedOdom s.current_imu_raw_data.time]⟩)
  else
    (false, ⟨{ s with filter := r.2 }, []⟩)

/-- Result of the inertial-raw drain loop inside `Run`. -/
structure DrainResult where
  filter : FilterState
  current : IMUData
  buff : List IMUData
  events : List Event
deriving Repr

/-- The drain loop of `Run`:
`while (HasIMUData() && ValidIMUData() && current_imu_raw_data_.time <
current_cloud_data_.time) UpdateLocalization();`
Each iteration pops the raw front into `current`, stops as soon as the popped
sample reaches the cloud timestamp `t`, and otherwise propagates (publishing
on success). -/
def drainLoop (env : Env) (f : FilterState) (t : ℚ) (cur : IMUData) :
    List IMUData → DrainResult
  | [] => ⟨f, cur, [], []⟩
  | d :: rest =>
      if d.time < t then
        let r := FilterState.Update env f d
        let evs := if r.1 then [Event.fusedTF d.time, Event.fusedOdom d.time]
                   else []
        let dr := drainLoop env r.2 t d rest
        ⟨dr.filter, dr.current, dr.buff, evs ++ dr.events⟩
      else
        ⟨f, d, rest, []⟩

/-- Lines 69–82 of `Run`: if raw inertial data is available, run the drain
loop and then push the last popped sample back (at the back of the deque,
`push_back`) when its timestamp already reached the cloud timestamp. -/
def imuDrainBlock (env : Env) (f : FilterState) (cur : IMUData) (t : ℚ)
    (buff : List IMUData) : DrainResult :=
  if buff.isEmpty then
    ⟨f, cur, buff, []⟩
  else
    let dr := drainLoop env f t cur buff
    let buff' := if t ≤ dr.current.time then dr.buff ++ [dr.current] else dr.buff
    ⟨dr.filter, dr.current, buff', dr.events⟩

/-- A correction verdict together with the mutated state and events. -/
structure CorrectResult where
  ok : Bool
  state : FlowState
  events : List Event
deriving Repr

/-- `FilteringFlow::CorrectLocalization`: run the opaque ESKF correction on
the current synced triple, store the correction-frame (laser) pose, publish
the laser odometry and current scan unconditionally, and publish the fused
odometry only when the correction succeeded.  On failure the nominal filter
state is left at its propagated value (spec: correction failure is non-fatal
and skips the state injection). -/
def CorrectLocalization (env : Env) (s : FlowState) : CorrectResult :=
  let r := env.correct s.filter s.current_imu_synced_data s.current_cloud_data
  let s1 := { s with laser_pose := r.laser_pose }
  let lidarEvs := [Event.laserOdom s.current_cloud_data.time, Event.currentScan]
  if r.ok then
    ⟨true,
     { s1 with filter := { s1.filter with pose := r.pose, vel := r.vel } },
     lidarEvs ++ [Event.fusedTF s.current_imu_raw_data.time,
                  Event.fusedOdom s.current_imu_raw_data.time]⟩
  else
    ⟨false, s1, lidarEvs⟩

/-- Lines 68–85 of `Run`: `if (HasLidarData() && ValidLidarData()) { ... drain
... push-back ... CorrectLocalization(); }`. -/
def lidarBlock (env : Env) (s : FlowState) : StepResult :=
  if HasLidarData s then
    let v := ValidLidarData s
    if v.ok then
      let s1 := v.state
      let dr := imuDrainBlock env s1.filter s1.current_imu_raw_data
                  s1.current_cloud_data.time s1.imu_raw_data_buff
      let s2 := { s1 with filter := dr.filter,
                          current_imu_raw_data := dr.current,
                          imu_raw_data_buff := dr.buff }
      let cr := CorrectLocalization env s2
      ⟨cr.state, dr.events ++ cr.events⟩
    else
      ⟨v.state, []⟩
  else
    ⟨s, []⟩

/-- Lines 87–89 of `Run`: `if (HasIMUData() && ValidIMUData())
UpdateLocalization();`. -/
def trailingUpdate (env : Env) (s : FlowState) : StepResult :=
  if HasIMUData s then
    let v := ValidIMUData s
    let r := UpdateLocalization env v.state
    r.2
  else
    ⟨s, []⟩

/-- One iteration of the `while (HasData())` loop body of `Run`. -/
def runStep (env : Env) (s : FlowState) : StepResult :=
  if HasInited s then
    let b := lidarBlock env s
    let t := trailingUpdate env b.state
    ⟨t.state, b.events ++ t.events⟩
  else
    let v := ValidLidarData s
    if v.ok then InitLocalization env v.state else ⟨v.state, []⟩

/-- The `while (HasData())` loop of `Run`, driven by explicit fuel.  Every
iteration of the C++ loop removes at least one buffered sample net, so any
fuel of at least the total buffered-sample count makes the fuelled loop agree
with the source loop; the theorems below hold for every fuel. -/
def runLoop (env : Env) : ℕ → FlowState → StepResult
  | 0, s => ⟨s, []⟩
  | fuel + 1, s =>
      if HasData s then
        let r := runStep env s
        let r' := runLoop env fuel r.state
        ⟨r'.state, r.events ++ r'.events⟩
      else
        ⟨s, []⟩

/-- The per-cycle external input of `Run`: the calibration-lookup outcome,
the freshly arrived samples appended by `ReadData` (the subscribers'
`ParseData`), and whether the map-publishing pass-throughs fire. -/
structure RunInput where
  lookup : Option Pose
  new_imu_raw : List IMUData
  new_cloud : List CloudData
  new_gnss : List PoseData
  new_imu_synced : List IMUData
  publish_global_map : Bool
  publish_local_map : Bool

/-- `FilteringFlow::ReadData`: append the newly arrived samples to the back
of each channel buffer. -/
def ReadData (input : RunInput) (s : FlowState) : FlowState :=
  { s with
    imu_raw_data_buff := s.imu_raw_data_buff ++ input.new_imu_raw,
    cloud_data_buff := s.cloud_data_buff ++ input.new_cloud,
    gnss_data_buff := s.gnss_data_buff ++ input.new_gnss,
    imu_synced_data_buff := s.imu_synced_data_buff ++ input.new_imu_synced }

/-- Result of one full `Run` cycle. -/
structure RunResult where
  ok : Bool
  state : FlowState
  events : List Event
deriving Repr

/-- `FilteringFlow::Run`: the calibration gate, the map-publishing
pass-throughs, `ReadData`, and the fuelled `while (HasData())` loop. -/
def Run (env : Env) (input : RunInput) (fuel : ℕ) (s : FlowState) : RunResult :=
  let c := InitCalibration input.lookup s
  if c.1 then
    let evsG := if input.publish_global_map then [Event.globalMap] else []
    let evsL := if input.publish_local_map then [Event.localMap] else []
    let s1 := ReadData input c.2
    let r := runLoop env fuel s1
    ⟨true, r.state, evsG ++ evsL ++ r.events⟩
  else
    ⟨false, c.2, []⟩

/-- Specification-side propagation of a list of inertial samples: fold the
ESKF `Update` over the list, emitting the fused-odometry publish after each
successful propagation.  Used to characterize the drain loop. -/
def propagateAll (env : Env) (f : FilterState) : List IMUData → FilterState × List Event
  | [] => (f, [])
  | d :: rest =>
      let r := FilterState.Update env f d
      let evs := if r.1 then [Event.fusedTF d.time, Event.fusedOdom d.time]
                 else []
      let pr := propagateAll env r.2 rest
      (pr.1, evs ++ pr.2)

/-- A channel buffer is time-ordered (non-decreasing timestamps, front to
back). -/
def timeOrdered : List IMUData → Bool
  | [] => true
  | [_] => true
  | a :: b :: rest => decide (a.time ≤ b.time) && timeOrdered (b :: rest)

/-- What the drain's exit leaves of the raw buffer: when the loop stopped at
a first not-older sample `d`, that sample was already popped, so the source
re-inserts it — with `push_back`, i.e. at the BACK of the remaining
buffer. -/
def retainAtBack : List IMUData → List IMUData
  | [] => []
  | d :: tl => tl ++ [d]

/-- The conclusion of the propagate-then-correct decomposition of the
initialized lidar block: on a time-ordered raw buffer, the block propagates
exactly the samples strictly older than the consumed triple's cloud
timestamp, in buffer order and with a fused-odometry publish after each
successful propagation, and only then corrects with the triple; the first
not-older raw sample is retained (re-appended at the back of the buffer). -/
def C3Concl (env : Env) (s : FlowState) : Prop :=
  let s1 := (ValidLidarData s).state
  let t := s1.current_cloud_data.time
  let older := s1.imu_raw_data_buff.takeWhile (fun d => decide (d.time < t))
  let rest := s1.imu_raw_data_buff.dropWhile (fun d => decide (d.time < t))
  let pr := propagateAll env s1.filter older
  let s2 := { s1 with
              filter := pr.1,
              current_imu_raw_data :=
                rest.headD (older.getLastD s1.current_imu_raw_data),
              imu_raw_data_buff := retainAtBack rest }
  older = s1.imu_raw_data_buff.filter (fun d => decide (d.time < t)) ∧
  lidarBlock env s =
    ⟨(CorrectLocalization env s2).state, pr.2 ++ (CorrectLocalization env s2).events⟩

/-- Zero 3-vector, used by the concrete test fixtures. -/
def v0 : Vec3 := ⟨0, 0, 0⟩

/-- Identity-like fixture pose. -/
def pose0 : Pose := ⟨v0, v0, v0, v0⟩

/-- Fixture pose with a distinctive translation (used as calibration result
and as a failing correction's laser pose). -/
def poseT : Pose := ⟨v0, v0, v0, ⟨1, 2, 3⟩⟩

/-- Fixture pose returned by the scan-context fixture environment. -/
def poseScan : Pose := ⟨v0, v0, v0, ⟨1, 0, 0⟩⟩

/-- Inertial fixture sample at a given time. -/
def mkIMU (t : ℚ) : IMUData := ⟨t, v0, v0⟩

/-- Cloud fixture sample at a given time. -/
def mkCloud (t : ℚ) : CloudData := ⟨t, 0⟩

/-- Absolute-pose fixture sample at a given time. -/
def mkGNSS (t : ℚ) : PoseData := ⟨t, pose0, v0⟩

/-- Base fixture flow state: calibrated, uninitialized, empty buffers. -/
def baseState : FlowState :=
  { imu_raw_data_buff := [], cloud_data_buff := [], gnss_data_buff := [],
    imu_synced_data_buff := [],
    current_imu_raw_data := mkIMU 0, current_cloud_data := mkCloud 0,
    current_gnss_data := mkGNSS 0, current_imu_synced_data := mkIMU 0,
    laser_pose := pose0, calibration_received := true, lidar_to_imu := pose0,
    filter := ⟨false, 0, pose0, v0⟩ }

/-- Fixture environment: scan-context init fails, propagation keeps the
nominal state, correction succeeds keeping the nominal state. -/
def env0 : Env :=
  { scanInit := fun _ _ _ => none,
    predict := fun f _ => (f.pose, f.vel),
    correct := fun f _ _ => ⟨true, f.pose, f.pose, f.vel⟩ }

/-- Fixture environment whose scan-context init succeeds with `poseScan`. -/
def envScan : Env :=
  { env0 with scanInit := fun _ _ _ => some poseScan }

/-- Fixture environment whose ESKF correction reports failure. -/
def envFail : Env :=
  { env0 with correct := fun f _ _ => ⟨false, poseT, f.pose, f.vel⟩ }

/-- Fixture state for the stale-companion counterexample: the GNSS front is
`0.5 s` behind the cloud front. -/
def sC1 : FlowState :=
  { baseState with cloud_data_buff := [mkCloud 1],
                   gnss_data_buff := [mkGNSS (1/2)],
                   imu_synced_data_buff := [mkIMU 1] }

/-- Fixture state with a triple aligned within tolerance (the synced-inertial
front sits exactly on the `0.05 s` boundary). -/
def sC2 : FlowState :=
  { baseState with cloud_data_buff := [mkCloud 1],
                   gnss_data_buff := [mkGNSS 1],
                   imu_synced_data_buff := [mkIMU (21/20)] }

/-- Fixture initialized state with two strictly-older raw samples and one
newer raw sample against a valid triple at time `10`. -/
def sC3 : FlowState :=
  { baseState with filter := ⟨true, 0, pose0, v0⟩,
                   imu_raw_data_buff := [mkIMU 3, mkIMU 7, mkIMU 12],
                   cloud_data_buff := [mkCloud 10],
                   gnss_data_buff := [mkGNSS 10],
                   imu_synced_data_buff := [mkIMU 10] }

/-- Fixture initialized state exhibiting the retained-sample re-insertion:
the raw front already carries the triple's timestamp while an even newer raw
sample is still buffered behind it. -/
def sC4 : FlowState :=
  { baseState with filter := ⟨true, 0, pose0, v0⟩,
                   imu_raw_data_buff := [mkIMU 1, mkIMU 2],
                   cloud_data_buff := [mkCloud 1],
                   gnss_data_buff := [mkGNSS 1],
                   imu_synced_data_buff := [mkIMU 1] }

/-- Fixture state for initialization: current triple at time `2`, raw buffer
holding one pre-seed and one post-seed sample. -/
def sC5 : FlowState :=
  { baseState with current_cloud_data := mkCloud 2,
                   current_gnss_data := mkGNSS 2,
                   current_imu_synced_data := mkIMU 2,
                   imu_raw_data_buff := [mkIMU 1, mkIMU 3] }

/-- Fixture state for the raw-buffer purge: seeding synced sample at
`15 s`, raw samples at `0`, `10` and `20`. -/
def sC6 : FlowState :=
  { baseState with current_imu_synced_data := mkIMU 15,
                   imu_raw_data_buff := [mkIMU 0, mkIMU 10, mkIMU 20] }

/-- Fixture initialized state for the correction-failure claim. -/
def sC8 : FlowState :=
  { baseState with filter := ⟨true, 5, pose0, v0⟩,
                   current_cloud_data := mkCloud 7,
                   current_imu_synced_data := mkIMU 7 }

/-- Fixture state with the calibration transform still unresolved. -/
def sC9 : FlowState :=
  { baseState with calibration_received := false }

/-- Fixture state with a non-empty raw-inertial buffer. -/
def sC10 : FlowState :=
  { baseState with imu_raw_data_buff := [mkIMU 5, mkIMU 6] }

/-- Fixture run input: no calibration result, no fresh samples. -/
def input0 : RunInput := ⟨none, [], [], [], [], false, false⟩

/-- Fixture run input carrying a successful calibration lookup. -/
def inputSome : RunInput := { input0 with lookup := some poseT }

theorem ValidLidarData_preserves (s : FlowState) :
    (ValidLidarData s).state.filter = s.filter ∧
    (ValidLidarData s).state.imu_raw_data_buff = s.imu_raw_data_buff ∧
    (ValidLidarData s).state.calibration_received = s.calibration_received ∧
    (ValidLidarData s).state.lidar_to_imu = s.lidar_to_imu := by
  obtain ⟨raw, cloud, gnss, synced, a, b, c, d, lp, cal, l2i, flt⟩ := s
  cases cloud <;> cases gnss <;> cases synced <;>
    simp only [ValidLidarData] <;> (try split_ifs) <;> simp

/-- C10: for every call with a non-empty inertial-raw buffer, `ValidIMUData`
unconditionally pops exactly the front sample into the working copy and
returns `true`; no timestamp or tolerance check is applied. -/
theorem C10_imu_unconditional (s : FlowState) (d : IMUData)
    (rest : List IMUData) (h : s.imu_raw_data_buff = d :: rest) :
    (ValidIMUData s).ok = true ∧
    (ValidIMUData s).state =
      { s with current_imu_raw_data := d, imu_raw_data_buff := rest } := by
  unfold ValidIMUData
  rw [h]
  exact ⟨rfl, rfl⟩

theorem C10_witness :
    sC10.imu_raw_data_buff = mkIMU 5 :: [mkIMU 6] ∧
    ((ValidIMUData sC10).ok = true ∧
     (ValidIMUData sC10).state =
       { sC10 with current_imu_raw_data := mkIMU 5,
                   imu_raw_data_buff := [mkIMU 6] }) :=
  ⟨rfl, C10_imu_unconditional sC10 (mkIMU 5) [mkIMU 6] rfl⟩

/-- C2: when the cloud front's timestamp differs from each companion front's
timestamp by at most `0.05 s`, `ValidLidarData` pops exactly one sample from
each of the three synced channels, leaves the raw channel untouched, and
reports valid. -/
theorem C2_aligned_triple (s : FlowState) (c : CloudData) (cs : List CloudData)
    (g : PoseData) (gs : List PoseData) (i : IMUData) (is' : List IMUData)
    (hc : s.cloud_data_buff = c :: cs) (hg : s.gnss_data_buff = g :: gs)
    (hi : s.imu_synced_data_buff = i :: is')
    (hg1 : -(1/20) ≤ c.time - g.time) (hg2 : c.time - g.time ≤ 1/20)
    (hi1 : -(1/20) ≤ c.time - i.time) (hi2 : c.time - i.time ≤ 1/20) :
    (ValidLidarData s).ok = true ∧
    (ValidLidarData s).state.cloud_data_buff = cs ∧
    (ValidLidarData s).state.gnss_data_buff = gs ∧
    (ValidLidarData s).state.imu_synced_data_buff = is' ∧
    (ValidLidarData s).state.imu_raw_data_buff = s.imu_raw_data_buff := by
  simp only [ValidLidarData, hc, hg, hi]
  have h1 : ¬ (c.time - g.time < -(1/20) ∨ c.time - i.time < -(1/20)) := by
    push_neg
    constructor <;> linarith
  have h2 : ¬ (c.time - g.time > 1/20) := by linarith
  have h3 : ¬ (c.time - i.time > 1/20) := by linarith
  rw [if_neg h1, if_neg h2, if_neg h3]
  exact ⟨rfl, rfl, rfl, rfl, rfl⟩

theorem C2_witness :
    (-(1/20) ≤ (mkCloud 1).time - (mkIMU (21/20)).time) ∧
    ((ValidLidarData sC2).ok = true ∧
     (ValidLidarData sC2).state.cloud_data_buff = [] ∧
     (ValidLidarData sC2).state.gnss_data_buff = [] ∧
     (ValidLidarData sC2).state.imu_synced_data_buff = [] ∧
     (ValidLidarData sC2).state.imu_raw_data_buff = sC2.imu_raw_data_buff) :=
  ⟨by norm_num [mkCloud, mkIMU],
   C2_aligned_triple sC2 (mkCloud 1) [] (mkGNSS 1) [] (mkIMU (21/20)) []
     rfl rfl rfl (by norm_num [mkCloud, mkGNSS]) (by norm_num [mkCloud, mkGNSS])
     (by norm_num [mkCloud, mkIMU]) (by norm_num [mkCloud, mkIMU])⟩

/-- C1 counterexample: at a state whose GNSS companion front is `0.5 s`
behind the cloud front (beyond the tolerance), the call reports invalid but
the cloud (pose-sample) front is left in place and it is the stale
companion's front that is popped — the opposite of the claimed drop
directions. -/
theorem C1_counterexample :
    ((sC1.cloud_data_buff.headD (mkCloud 0)).time -
       (sC1.gnss_data_buff.headD (mkGNSS 0)).time > 1/20) ∧
    (ValidLidarData sC1).ok = false ∧
    (ValidLidarData sC1).state.cloud_data_buff = sC1.cloud_data_buff ∧
    (ValidLidarData sC1).state.gnss_data_buff ≠ sC1.gnss_data_buff := by
  norm_num [ValidLidarData, sC1, baseState, mkCloud, mkGNSS, mkIMU]

/-- C1 (amended): in every invalid `ValidLidarData` call exactly one
channel's front is popped and the result is `false`; when some companion is
more than the tolerance ahead of the cloud front, the cloud front itself is
dropped (leaving the companions); otherwise the stale (behind) companion's
front is dropped, the GNSS channel being checked first. -/
theorem C1_amended_drop (s : FlowState) (c : CloudData) (cs : List CloudData)
    (g : PoseData) (gs : List PoseData) (i : IMUData) (is' : List IMUData)
    (hc : s.cloud_data_buff = c :: cs) (hg : s.gnss_data_buff = g :: gs)
    (hi : s.imu_synced_data_buff = i :: is')
    (hviol : c.time - g.time < -(1/20) ∨ c.time - i.time < -(1/20) ∨
             c.time - g.time > 1/20 ∨ c.time - i.time > 1/20) :
    (ValidLidarData s).ok = false ∧
    (ValidLidarData s).state.imu_raw_data_buff = s.imu_raw_data_buff ∧
    ((c.time - g.time < -(1/20) ∨ c.time - i.time < -(1/20)) →
       (ValidLidarData s).state.cloud_data_buff = cs ∧
       (ValidLidarData s).state.gnss_data_buff = g :: gs ∧
       (ValidLidarData s).state.imu_synced_data_buff = i :: is') ∧
    (¬ (c.time - g.time < -(1/20) ∨ c.time - i.time < -(1/20)) →
     c.time - g.time > 1/20 →
       (ValidLidarData s).state.cloud_data_buff = c :: cs ∧
       (ValidLidarData s).state.gnss_data_buff = gs ∧
       (ValidLidarData s).state.imu_synced_data_buff = i :: is') ∧
    (¬ (c.time - g.time < -(1/20) ∨ c.time - i.time < -(1/20)) →
     ¬ (c.time - g.time > 1/20) →
       (ValidLidarData s).state.cloud_data_buff = c :: cs ∧
       (ValidLidarData s).state.gnss_data_buff = g :: gs ∧
       (ValidLidarData s).state.imu_synced_data_buff = is') := by
  simp only [ValidLidarData, hc, hg, hi]
  by_cases hA : c.time - g.time < -(1/20) ∨ c.time - i.time < -(1/20)
  · rw [if_pos hA]
    exact ⟨rfl, rfl, fun _ => ⟨rfl, rfl, rfl⟩, fun hnA => absurd hA hnA,
           fun hnA => absurd hA hnA⟩
  · rw [if_neg hA]
    by_cases hB : c.time - g.time > 1/20
    · rw [if_pos hB]
      exact ⟨rfl, rfl, fun h => absurd h hA, fun _ _ => ⟨rfl, rfl, rfl⟩,
             fun _ hnB => absurd hB hnB⟩
    · have hC : c.time - i.time > 1/20 := by
        rcases hviol with h | h | h | h
        · exact absurd (Or.inl h) hA
        · exact absurd (Or.inr h) hA
        · exact absurd h hB
        · exact h
      rw [if_neg hB, if_pos hC]
      exact ⟨rfl, rfl, fun h => absurd h hA, fun _ h => absurd h hB,
             fun _ _ => ⟨rfl, rfl, rfl⟩⟩

theorem C1_witness :
    ((mkCloud 1).time - (mkGNSS (1/2)).time > 1/20) ∧
    ((ValidLidarData sC1).ok = false ∧
     (ValidLidarData sC1).state.imu_raw_data_buff = sC1.imu_raw_data_buff ∧
     (¬ ((mkCloud 1).time - (mkGNSS (1/2)).time < -(1/20) ∨
         (mkCloud 1).time - (mkIMU 1).time < -(1/20)) →
      (mkCloud 1).time - (mkGNSS (1/2)).time > 1/20 →
        (ValidLidarData sC1).state.cloud_data_buff = [mkCloud 1] ∧
        (ValidLidarData sC1).state.gnss_data_buff = [] ∧
        (ValidLidarData sC1).state.imu_synced_data_buff = [mkIMU 1])) :=
  ⟨by norm_num [mkCloud, mkGNSS],
   ⟨(C1_amended_drop sC1 (mkCloud 1) [] (mkGNSS (1/2)) [] (mkIMU 1) []
       rfl rfl rfl
       (Or.inr (Or.inr (Or.inl (by norm_num [mkCloud, mkGNSS]))))).1,
    (C1_amended_drop sC1 (mkCloud 1) [] (mkGNSS (1/2)) [] (mkIMU 1) []
       rfl rfl rfl
       (Or.inr (Or.inr (Or.inl (by norm_num [mkCloud, mkGNSS]))))).2.1,
    (C1_amended_drop sC1 (mkCloud 1) [] (mkGNSS (1/2)) [] (mkIMU 1) []
       rfl rfl rfl
       (Or.inr (Or.inr (Or.inl (by norm_num [mkCloud, mkGNSS]))))).2.2.2.1⟩⟩

theorem dropStaleIMU_eq_dropWhile (t : ℚ) (l : List IMUData) :
    dropStaleIMU t l = l.dropWhile (fun d => decide (d.time < t)) := by
  induction l with
  | nil => rfl
  | cons d rest ih =>
      by_cases h : d.time < t
      · simp [dropStaleIMU, List.dropWhile_cons, h, ih]
      · simp [dropStaleIMU, List.dropWhile_cons, h]

theorem timeOrdered_tail {a : IMUData} {l : List IMUData}
    (h : timeOrdered (a :: l) = true) : timeOrdered l = true := by
  cases l with
  | nil => rfl
  | cons b rest =>
      simp only [timeOrdered, Bool.and_eq_true] at h
      exact h.2

theorem timeOrdered_head_le {a : IMUData} {l : List IMUData}
    (h : timeOrdered (a :: l) = true) : ∀ d ∈ l, a.time ≤ d.time := by
  induction l generalizing a with
  | nil => intro d hd; cases hd
  | cons b rest ih =>
      intro d hd
      simp only [timeOrdered, Bool.and_eq_true, decide_eq_true_eq] at h
      rcases List.mem_cons.mp hd with rfl | hd'
      · exact h.1
      · exact le_trans h.1 (ih h.2 d hd')

theorem takeWhile_eq_filter_of_ordered (t : ℚ) (l : List IMUData)
    (h : timeOrdered l = true) :
    l.takeWhile (fun d => decide (d.time < t)) =
      l.filter (fun d => decide (d.time < t)) := by
  induction l with
  | nil => rfl
  | cons a rest ih =>
      by_cases ha : a.time < t
      · simp [List.takeWhile_cons, List.filter_cons, ha,
              ih (timeOrdered_tail h)]
      · have hrest : rest.filter (fun d => decide (d.time < t)) = [] := by
          refine List.filter_eq_nil_iff.mpr ?_
          intro d hd
          simp only [decide_eq_true_eq]
          intro hlt
          exact ha (lt_of_le_of_lt (timeOrdered_head_le h d hd) hlt)
        simp [List.takeWhile_cons, List.filter_cons, ha, hrest]

theorem dropWhile_eq_filter_of_ordered (t : ℚ) (l : List IMUData)
    (h : timeOrdered l = true) :
    l.dropWhile (fun d => decide (d.time < t)) =
      l.filter (fun d => decide (t ≤ d.time)) := by
  induction l with
  | nil => rfl
  | cons a rest ih =>
      by_cases ha : a.time < t
      · have hna : ¬ (t ≤ a.time) := not_le.mpr ha
        simp [List.dropWhile_cons, List.filter_cons, ha, hna,
              ih (timeOrdered_tail h)]
      · have hta : t ≤ a.time := not_lt.mp ha
        have hrest : rest.filter (fun d => decide (t ≤ d.time)) = rest := by
          refine List.filter_eq_self.mpr ?_
          intro d hd
          simp only [decide_eq_true_eq]
          exact le_trans hta (timeOrdered_head_le h d hd)
        simp [List.dropWhile_cons, List.filter_cons, ha, hta, hrest]

/-- C5: initialization always completes with an initialized filter; when the
scan-context query succeeds the filter is seeded from the scan pose and the
absolute sample's velocity — the Euclidean deviation from the absolute
position is emitted only as a diagnostic, for every possible deviation value,
never rejecting the scan result — and when the query fails the filter is
seeded directly from the absolute-pose sample's pose and velocity. -/
theorem C5_init_seeding (env : Env) (s : FlowState) :
    (InitLocalization env s).state.filter.has_inited = true ∧
    (∀ p, env.scanInit s.current_cloud_data s.current_gnss_data.vel
        s.current_imu_synced_data = some p →
      (InitLocalization env s).state.filter =
        FilterState.seed p s.current_gnss_data.vel s.current_imu_synced_data ∧
      Event.initDiagnostic
          (Vec3.sqNorm (Vec3.sub p.position s.current_gnss_data.pose.position))
        ∈ (InitLocalization env s).events) ∧
    (env.scanInit s.current_cloud_data s.current_gnss_data.vel
        s.current_imu_synced_data = none →
      (InitLocalization env s).state.filter =
        FilterState.seed s.current_gnss_data.pose s.current_gnss_data.vel
          s.current_imu_synced_data) := by
  cases hscan : env.scanInit s.current_cloud_data s.current_gnss_data.vel
      s.current_imu_synced_data with
  | some p =>
      refine ⟨by simp [InitLocalization, hscan, FilterState.seed], ?_, ?_⟩
      · intro p' hp'
        injection hp' with hp'
        subst hp'
        exact ⟨by simp [InitLocalization, hscan], by simp [InitLocalization, hscan]⟩
      · intro hnone
        simp at hnone
  | none =>
      refine ⟨by simp [InitLocalization, hscan, FilterState.seed], ?_, ?_⟩
      · intro p' hp'
        simp at hp'
      · intro _
        simp [InitLocalization, hscan]

theorem C5_witness :
    envScan.scanInit sC5.current_cloud_data sC5.current_gnss_data.vel
        sC5.current_imu_synced_data = some poseScan ∧
    ((InitLocalization envScan sC5).state.filter =
       FilterState.seed poseScan sC5.current_gnss_data.vel
         sC5.current_imu_synced_data ∧
     Event.initDiagnostic
         (Vec3.sqNorm (Vec3.sub poseScan.position
            sC5.current_gnss_data.pose.position))
       ∈ (InitLocalization envScan sC5).events) :=
  ⟨rfl, (C5_init_seeding envScan sC5).2.1 poseScan rfl⟩

/-- C6: after initialization, on a time-ordered raw buffer, every remaining
raw-inertial sample is at least as new as the seeding synced-inertial
sample — the purge removes exactly the samples whose timestamp precedes it. -/
theorem C6_raw_purge (env : Env) (s : FlowState)
    (h : timeOrdered s.imu_raw_data_buff = true) :
    (∀ d ∈ (InitLocalization env s).state.imu_raw_data_buff,
       s.current_imu_synced_data.time ≤ d.time) ∧
    (InitLocalization env s).state.imu_raw_data_buff =
      s.imu_raw_data_buff.filter
        (fun d => decide (s.current_imu_synced_data.time ≤ d.time)) := by
  have hbuff : (InitLocalization env s).state.imu_raw_data_buff =
      dropStaleIMU s.current_imu_synced_data.time s.imu_raw_data_buff := by
    cases hscan : env.scanInit s.current_cloud_data s.current_gnss_data.vel
        s.current_imu_synced_data <;> simp [InitLocalization, hscan]
  rw [hbuff, dropStaleIMU_eq_dropWhile,
      dropWhile_eq_filter_of_ordered _ _ h]
  refine ⟨?_, rfl⟩
  intro d hd
  simpa using List.of_mem_filter hd

theorem dropWhile_head_false {α : Type} {p : α → Bool} {l : List α}
    {d : α} {tl : List α} (h : l.dropWhile p = d :: tl) : p d = false := by
  induction l with
  | nil => simp [List.dropWhile] at h
  | cons a rest ih =>
      by_cases ha : p a = true
      · rw [List.dropWhile_cons, if_pos ha] at h
        exact ih h
      · rw [List.dropWhile_cons, if_neg ha] at h
        injection h with h1 _
        subst h1
        exact Bool.not_eq_true _ ▸ eq_false_of_ne_true ha

theorem takeWhile_eq_self_of_dropWhile_nil {α : Type} {p : α → Bool}
    {l : List α} (h : l.dropWhile p = []) : l.takeWhile p = l := by
  have happ := List.takeWhile_append_dropWhile p l
  rw [h, List.append_nil] at happ
  exact happ

theorem getLastD_mem {α : Type} {l : List α} (a : α) (h : l ≠ []) :
    l.getLastD a ∈ l := by
  induction l generalizing a with
  | nil => exact absurd rfl h
  | cons x xs ih =>
      rw [List.getLastD_cons]
      cases xs with
      | nil => simp [List.getLastD]
      | cons y ys => exact List.mem_cons_of_mem x (ih x (by simp))

theorem getLast?_getD_cons {α : Type} :
    ∀ (l : List α) (a b : α), (b :: l).getLast?.getD a = l.getLast?.getD b
  | [], _, _ => rfl
  | x :: xs, a, b => by
      rw [List.getLast?_cons_cons]
      rw [getLast?_getD_cons xs a x, getLast?_getD_cons xs b x]

theorem drainLoop_spec (env : Env) (t : ℚ) (l : List IMUData) :
    ∀ (f : FilterState) (cur : IMUData),
    drainLoop env f t cur l =
      ⟨(propagateAll env f (l.takeWhile (fun d => decide (d.time < t)))).1,
       (l.dropWhile (fun d => decide (d.time < t))).headD
         ((l.takeWhile (fun d => decide (d.time < t))).getLastD cur),
       (l.dropWhile (fun d => decide (d.time < t))).tail,
       (propagateAll env f (l.takeWhile (fun d => decide (d.time < t)))).2⟩ := by
  induction l with
  | nil => intro f cur; rfl
  | cons d rest ih =>
      intro f cur
      by_cases hd : d.time < t
      · simp [drainLoop, List.takeWhile_cons, List.dropWhile_cons, hd,
              propagateAll, ih, List.getLastD_cons, getLast?_getD_cons]
      · simp [drainLoop, List.takeWhile_cons, List.dropWhile_cons, hd,
              propagateAll]

theorem imuDrainBlock_spec (env : Env) (f : FilterState) (cur : IMUData)
    (t : ℚ) (buff : List IMUData) :
    imuDrainBlock env f cur t buff =
      ⟨(propagateAll env f (buff.takeWhile (fun d => decide (d.time < t)))).1,
       (buff.dropWhile (fun d => decide (d.time < t))).headD
         ((buff.takeWhile (fun d => decide (d.time < t))).getLastD cur),
       retainAtBack (buff.dropWhile (fun d => decide (d.time < t))),
       (propagateAll env f (buff.takeWhile (fun d => decide (d.time < t)))).2⟩ := by
  cases hbuff : buff with
  | nil => rfl
  | cons b bs =>
      rw [imuDrainBlock]
      rw [if_neg (by simp : ¬ ((b :: bs).isEmpty = true))]
      rw [drainLoop_spec]
      cases hrest : (b :: bs).dropWhile (fun d => decide (d.time < t)) with
      | nil =>
          have htw : (b :: bs).takeWhile (fun d => decide (d.time < t)) = b :: bs :=
            takeWhile_eq_self_of_dropWhile_nil hrest
          have hmem : ((b :: bs).takeWhile
              (fun d => decide (d.time < t))).getLastD cur ∈
              (b :: bs).takeWhile (fun d => decide (d.time < t)) := by
            rw [htw]
            exact getLastD_mem cur (by simp)
          have hlt := List.mem_takeWhile_imp hmem
          simp only [decide_eq_true_eq] at hlt
          simp only [retainAtBack, List.headD, List.tail]
          rw [if_neg (not_le.mpr hlt)]
      | cons d tl =>
          have hfalse := dropWhile_head_false hrest
          have hle : t ≤ d.time := by
            have := of_decide_eq_false hfalse
            exact not_lt.mp this
          simp only [retainAtBack, List.headD, List.tail]
          rw [if_pos hle]

/-- C3: on an initialized cycle that consumes a valid time-aligned triple
from a time-ordered raw buffer, the lidar block first propagates (via
`Update`) every buffered raw-inertial sample strictly older than the triple's
cloud timestamp, in order, emitting the fused-odometry publish after each
successful propagation, and only then runs the correction with the triple
(on the propagated filter state), whose events follow all propagation
events. -/
theorem C3_propagate_then_correct (env : Env) (s : FlowState)
    (_hin : HasInited s = true) (hlid : HasLidarData s = true)
    (hval : (ValidLidarData s).ok = true)
    (hord : timeOrdered s.imu_raw_data_buff = true) :
    C3Concl env s := by
  have hraw : (ValidLidarData s).state.imu_raw_data_buff = s.imu_raw_data_buff :=
    (ValidLidarData_preserves s).2.1
  simp only [C3Concl]
  constructor
  · rw [hraw]
    exact takeWhile_eq_filter_of_ordered _ _ hord
  · simp only [lidarBlock, hlid, hval, if_true, ite_true]
    rw [imuDrainBlock_spec]

theorem C3_witness :
    HasInited sC3 = true ∧ HasLidarData sC3 = true ∧
    (ValidLidarData sC3).ok = true ∧ timeOrdered sC3.imu_raw_data_buff = true ∧
    C3Concl env0 sC3 := by
  have h1 : HasInited sC3 = true := rfl
  have h2 : HasLidarData sC3 = true := rfl
  have h3 : (ValidLidarData sC3).ok = true := by
    norm_num [ValidLidarData, sC3, baseState, mkCloud, mkGNSS, mkIMU]
  have h4 : timeOrdered sC3.imu_raw_data_buff = true := by decide
  exact ⟨h1, h2, h3, h4, C3_propagate_then_correct env0 sC3 h1 h2 h3 h4⟩

/-- C4: evaluation at the failing input.  With a time-ordered raw buffer
`[1, 2]` and a valid triple at time `1`, the drain retains the raw sample at
time `1` (it is in the post-block buffer rather than consumed), but the
`push_back` re-insertion appends it BEHIND the newer sample: the raw channel
comes out as `[2, 1]`, no longer time-ordered — the sample does not re-enter
in timestamp order, contradicting the claimed never-reordered invariant. -/
theorem C4_reorder_eval :
    timeOrdered sC4.imu_raw_data_buff = true ∧
    (ValidLidarData sC4).ok = true ∧
    (lidarBlock env0 sC4).state.imu_raw_data_buff = [mkIMU 2, mkIMU 1] ∧
    mkIMU 1 ∈ (lidarBlock env0 sC4).state.imu_raw_data_buff ∧
    timeOrdered (lidarBlock env0 sC4).state.imu_raw_data_buff = false := by
  refine ⟨by decide, ?_, ?_, ?_, ?_⟩ <;>
    norm_num [lidarBlock, HasLidarData, ValidLidarData, imuDrainBlock,
              drainLoop, CorrectLocalization, env0, sC4, baseState, mkCloud,
              mkGNSS, mkIMU, timeOrdered]

theorem C6_witness :
    timeOrdered sC6.imu_raw_data_buff = true ∧
    ((∀ d ∈ (InitLocalization env0 sC6).state.imu_raw_data_buff,
        sC6.current_imu_synced_data.time ≤ d.time) ∧
     (InitLocalization env0 sC6).state.imu_raw_data_buff =
       sC6.imu_raw_data_buff.filter
         (fun d => decide (sC6.current_imu_synced_data.time ≤ d.time))) :=
  ⟨by decide, C6_raw_purge env0 sC6 (by decide)⟩

theorem Update_has_inited (env : Env) (f : FilterState) (d : IMUData) :
    (FilterState.Update env f d).2.has_inited = f.has_inited := by
  unfold FilterState.Update
  split_ifs <;> rfl

theorem countInit_append (l1 l2 : List Event) :
    countInit (l1 ++ l2) = countInit l1 + countInit l2 := by
  simp [countInit, List.countP_append]

theorem countInit_nil : countInit [] = 0 := rfl

theorem ValidLidarData_filter (s : FlowState) :
    (ValidLidarData s).state.filter = s.filter :=
  (ValidLidarData_preserves s).1

theorem ValidLidarData_raw (s : FlowState) :
    (ValidLidarData s).state.imu_raw_data_buff = s.imu_raw_data_buff :=
  (ValidLidarData_preserves s).2.1

theorem ValidLidarData_cal (s : FlowState) :
    (ValidLidarData s).state.calibration_received = s.calibration_received :=
  (ValidLidarData_preserves s).2.2.1

theorem ValidLidarData_l2i (s : FlowState) :
    (ValidLidarData s).state.lidar_to_imu = s.lidar_to_imu :=
  (ValidLidarData_preserves s).2.2.2

theorem ValidIMUData_filter (s : FlowState) :
    (ValidIMUData s).state.filter = s.filter := by
  cases h : s.imu_raw_data_buff <;> simp [ValidIMUData, h]

theorem ValidIMUData_cal (s : FlowState) :
    (ValidIMUData s).state.calibration_received = s.calibration_received := by
  cases h : s.imu_raw_data_buff <;> simp [ValidIMUData, h]

theorem ValidIMUData_l2i (s : FlowState) :
    (ValidIMUData s).state.lidar_to_imu = s.lidar_to_imu := by
  cases h : s.imu_raw_data_buff <;> simp [ValidIMUData, h]

theorem UpdateLocalization_inited (env : Env) (s : FlowState) :
    (UpdateLocalization env s).2.state.filter.has_inited =
      s.filter.has_inited := by
  simp only [UpdateLocalization]
  split_ifs <;> simp [Update_has_inited]

theorem UpdateLocalization_count (env : Env) (s : FlowState) :
    countInit (UpdateLocalization env s).2.events = 0 := by
  simp only [UpdateLocalization]
  split_ifs <;> rfl

theorem UpdateLocalization_cal (env : Env) (s : FlowState) :
    (UpdateLocalization env s).2.state.calibration_received =
      s.calibration_received := by
  simp only [UpdateLocalization]
  split_ifs <;> rfl

theorem UpdateLocalization_l2i (env : Env) (s : FlowState) :
    (UpdateLocalization env s).2.state.lidar_to_imu = s.lidar_to_imu := by
  simp only [UpdateLocalization]
  split_ifs <;> rfl

theorem CorrectLocalization_inited (env : Env) (s : FlowState) :
    (CorrectLocalization env s).state.filter.has_inited =
      s.filter.has_inited := by
  simp only [CorrectLocalization]
  split_ifs <;> rfl

theorem CorrectLocalization_count (env : Env) (s : FlowState) :
    countInit (CorrectLocalization env s).events = 0 := by
  simp only [CorrectLocalization]
  split_ifs <;> rfl

theorem CorrectLocalization_cal (env : Env) (s : FlowState) :
    (CorrectLocalization env s).state.calibration_received =
      s.calibration_received := by
  simp only [CorrectLocalization]
  split_ifs <;> rfl

theorem CorrectLocalization_l2i (env : Env) (s : FlowState) :
    (CorrectLocalization env s).state.lidar_to_imu = s.lidar_to_imu := by
  simp only [CorrectLocalization]
  split_ifs <;> rfl

theorem drainLoop_inited (env : Env) (t : ℚ) :
    ∀ (l : List IMUData) (f : FilterState) (cur : IMUData),
    (drainLoop env f t cur l).filter.has_inited = f.has_inited
  | [], _, _ => rfl
  | d :: rest, f, cur => by
      by_cases hd : d.time < t
      · simp only [drainLoop, hd, ite_true, if_true]
        rw [drainLoop_inited env t rest (FilterState.Update env f d).2 d,
            Update_has_inited]
      · simp [drainLoop, hd]

theorem drainLoop_count (env : Env) (t : ℚ) :
    ∀ (l : List IMUData) (f : FilterState) (cur : IMUData),
    countInit (drainLoop env f t cur l).events = 0
  | [], _, _ => rfl
  | d :: rest, f, cur => by
      by_cases hd : d.time < t
      · simp only [drainLoop, hd, ite_true, if_true]
        rw [countInit_append, drainLoop_count env t rest
          (FilterState.Update env f d).2 d]
        split_ifs <;> rfl
      · simp [drainLoop, hd, countInit_nil]

theorem imuDrainBlock_inited (env : Env) (f : FilterState) (cur : IMUData)
    (t : ℚ) (buff : List IMUData) :
    (imuDrainBlock env f cur t buff).filter.has_inited = f.has_inited := by
  unfold imuDrainBlock
  split_ifs <;> simp [drainLoop_inited]

theorem imuDrainBlock_count (env : Env) (f : FilterState) (cur : IMUData)
    (t : ℚ) (buff : List IMUData) :
    countInit (imuDrainBlock env f cur t buff).events = 0 := by
  unfold imuDrainBlock
  split_ifs <;> simp [countInit_nil, drainLoop_count]

theorem InitLocalization_inited (env : Env) (s : FlowState) :
    (InitLocalization env s).state.filter.has_inited = true := by
  cases hscan : env.scanInit s.current_cloud_data s.current_gnss_data.vel
      s.current_imu_synced_data <;>
    simp [InitLocalization, hscan, FilterState.seed]

theorem InitLocalization_count (env : Env) (s : FlowState) :
    countInit (InitLocalization env s).events = 1 := by
  cases hscan : env.scanInit s.current_cloud_data s.current_gnss_data.vel
      s.current_imu_synced_data <;>
    simp [InitLocalization, hscan, countInit, isInitEvent, List.countP_cons]

theorem InitLocalization_cal (env : Env) (s : FlowState) :
    (InitLocalization env s).state.calibration_received =
      s.calibration_received := by
  cases hscan : env.scanInit s.current_cloud_data s.current_gnss_data.vel
      s.current_imu_synced_data <;>
    simp [InitLocalization, hscan]

theorem InitLocalization_l2i (env : Env) (s : FlowState) :
    (InitLocalization env s).state.lidar_to_imu = s.lidar_to_imu := by
  cases hscan : env.scanInit s.current_cloud_data s.current_gnss_data.vel
      s.current_imu_synced_data <;>
    simp [InitLocalization, hscan]

theorem lidarBlock_inited (env : Env) (s : FlowState) :
    (lidarBlock env s).state.filter.has_inited = s.filter.has_inited := by
  simp only [lidarBlock]
  split_ifs <;>
    simp [CorrectLocalization_inited, imuDrainBlock_inited,
          ValidLidarData_filter]

theorem lidarBlock_count (env : Env) (s : FlowState) :
    countInit (lidarBlock env s).events = 0 := by
  simp only [lidarBlock]
  split_ifs <;>
    simp [countInit_append, countInit_nil, imuDrainBlock_count,
          CorrectLocalization_count]

theorem lidarBlock_cal (env : Env) (s : FlowState) :
    (lidarBlock env s).state.calibration_received = s.calibration_received := by
  simp only [lidarBlock]
  split_ifs <;>
    simp [CorrectLocalization_cal, ValidLidarData_cal]

theorem lidarBlock_l2i (env : Env) (s : FlowState) :
    (lidarBlock env s).state.lidar_to_imu = s.lidar_to_imu := by
  simp only [lidarBlock]
  split_ifs <;>
    simp [CorrectLocalization_l2i, ValidLidarData_l2i]

theorem trailingUpdate_inited (env : Env) (s : FlowState) :
    (trailingUpdate env s).state.filter.has_inited = s.filter.has_inited := by
  simp only [trailingUpdate]
  split_ifs <;>
    simp [UpdateLocalization_inited, ValidIMUData_filter]

theorem trailingUpdate_count (env : Env) (s : FlowState) :
    countInit (trailingUpdate env s).events = 0 := by
  simp only [trailingUpdate]
  split_ifs <;>
    simp [UpdateLocalization_count, countInit_nil]

theorem trailingUpdate_cal (env : Env) (s : FlowState) :
    (trailingUpdate env s).state.calibration_received =
      s.calibration_received := by
  simp only [trailingUpdate]
  split_ifs <;>
    simp [UpdateLocalization_cal, ValidIMUData_cal]

theorem trailingUpdate_l2i (env : Env) (s : FlowState) :
    (trailingUpdate env s).state.lidar_to_imu = s.lidar_to_imu := by
  simp only [trailingUpdate]
  split_ifs <;>
    simp [UpdateLocalization_l2i, ValidIMUData_l2i]

theorem runStep_cal (env : Env) (s : FlowState) :
    (runStep env s).state.calibration_received = s.calibration_received := by
  simp only [runStep]
  split_ifs <;>
    simp [trailingUpdate_cal, lidarBlock_cal, InitLocalization_cal,
          ValidLidarData_cal]

theorem runStep_l2i (env : Env) (s : FlowState) :
    (runStep env s).state.lidar_to_imu = s.lidar_to_imu := by
  simp only [runStep]
  split_ifs <;>
    simp [trailingUpdate_l2i, lidarBlock_l2i, InitLocalization_l2i,
          ValidLidarData_l2i]

theorem runStep_initCount (env : Env) (s : FlowState) :
    countInit (runStep env s).events ≤
      (if HasInited s = true then 0 else 1) ∧
    HasInited (runStep env s).state =
      (HasInited s || decide (0 < countInit (runStep env s).events)) := by
  simp only [runStep]
  by_cases h : HasInited s = true
  · simp only [h, ite_true, if_true]
    have hc : countInit ((lidarBlock env s).events ++
        (trailingUpdate env (lidarBlock env s).state).events) = 0 := by
      rw [countInit_append, lidarBlock_count, trailingUpdate_count]
    constructor
    · simp [hc]
    · simp only [HasInited] at h ⊢
      simp [hc, trailingUpdate_inited, lidarBlock_inited, h]
  · have hf : HasInited s = false := by
      cases hh : HasInited s
      · rfl
      · exact absurd hh h
    simp only [h, ite_false, if_false]
    by_cases h2 : (ValidLidarData s).ok = true
    · simp only [h2, ite_true, if_true]
      constructor
      · simp [InitLocalization_count]
      · simp only [HasInited] at hf ⊢
        simp [InitLocalization_count, InitLocalization_inited, hf]
    · simp only [h2, ite_false]
      constructor
      · simp [countInit_nil]
      · simp only [HasInited] at hf ⊢
        simp [countInit_nil, ValidLidarData_filter, hf]

theorem runLoop_cal (env : Env) :
    ∀ (fuel : ℕ) (s : FlowState),
    (runLoop env fuel s).state.calibration_received = s.calibration_received
  | 0, _ => rfl
  | fuel + 1, s => by
      by_cases hdata : HasData s = true
      · simp only [runLoop, hdata, ite_true, if_true]
        rw [runLoop_cal env fuel (runStep env s).state, runStep_cal]
      · simp [runLoop, hdata]

theorem runLoop_l2i (env : Env) :
    ∀ (fuel : ℕ) (s : FlowState),
    (runLoop env fuel s).state.lidar_to_imu = s.lidar_to_imu
  | 0, _ => rfl
  | fuel + 1, s => by
      by_cases hdata : HasData s = true
      · simp only [runLoop, hdata, ite_true, if_true]
        rw [runLoop_l2i env fuel (runStep env s).state, runStep_l2i]
      · simp [runLoop, hdata]

theorem runLoop_initCount (env : Env) :
    ∀ (fuel : ℕ) (s : FlowState),
    countInit (runLoop env fuel s).events ≤
      (if HasInited s = true then 0 else 1) ∧
    HasInited (runLoop env fuel s).state =
      (HasInited s || decide (0 < countInit (runLoop env fuel s).events))
  | 0, s => by
      constructor
      · simp [runLoop, countInit_nil]
      · simp [runLoop, countInit_nil]
  | fuel + 1, s => by
      by_cases hdata : HasData s = true
      · simp only [runLoop, hdata, ite_true, if_true]
        have hstep := runStep_initCount env s
        have ih := runLoop_initCount env fuel (runStep env s).state
        rw [countInit_append]
        cases hin : HasInited s with
        | true =>
            rw [hin] at hstep
            rw [if_pos rfl] at hstep
            have ha : countInit (runStep env s).events = 0 :=
              Nat.le_zero.mp hstep.1
            have hsi : HasInited (runStep env s).state = true := by
              rw [hstep.2]
              simp
            rw [hsi, if_pos rfl] at ih
            have hb : countInit (runLoop env fuel (runStep env s).state).events
                = 0 := Nat.le_zero.mp ih.1
            constructor
            · simp [ha, hb]
            · rw [ih.2]
              simp
        | false =>
            rw [hin] at hstep
            rw [if_neg (show ¬ (false = true) by simp)] at hstep
            rcases Nat.eq_zero_or_pos (countInit (runStep env s).events) with
              ha | ha
            · have hsi : HasInited (runStep env s).state = false := by
                rw [hstep.2, ha]
                rfl
              rw [hsi, if_neg (show ¬ (false = true) by simp)] at ih
              constructor
              · rw [ha]
                simpa using ih.1
              · rw [ih.2, ha]
                simp
            · have hsi : HasInited (runStep env s).state = true := by
                rw [hstep.2]
                simpa using ha
              rw [hsi, if_pos rfl] at ih
              have hb : countInit (runLoop env fuel
                  (runStep env s).state).events = 0 := Nat.le_zero.mp ih.1
              constructor
              · have ha1 : countInit (runStep env s).events ≤ 1 := hstep.1
                have hg : (if (false : Bool) = true then 0 else 1) = 1 := by
                  simp
                rw [hg]
                omega
              · rw [ih.2, hb]
                simpa using ha
      · simp [runLoop, hdata, countInit_nil]

theorem InitCalibration_filter (lk : Option Pose) (s : FlowState) :
    (InitCalibration lk s).2.filter = s.filter := by
  unfold InitCalibration
  split_ifs
  · rfl
  · cases lk <;> rfl

theorem Run_gate_true (env : Env) (input : RunInput) (fuel : ℕ)
    (s : FlowState) (hc : (InitCalibration input.lookup s).1 = true) :
    Run env input fuel s =
      ⟨true,
       (runLoop env fuel
         (ReadData input (InitCalibration input.lookup s).2)).state,
       ((if input.publish_global_map then [Event.globalMap] else []) ++
         (if input.publish_local_map then [Event.localMap] else [])) ++
        (runLoop env fuel
          (ReadData input (InitCalibration input.lookup s).2)).events⟩ := by
  simp only [Run]
  rw [if_pos hc]

theorem Run_gate_false (env : Env) (input : RunInput) (fuel : ℕ)
    (s : FlowState) (hc : ¬ ((InitCalibration input.lookup s).1 = true)) :
    Run env input fuel s = ⟨false, (InitCalibration input.lookup s).2, []⟩ := by
  simp only [Run]
  rw [if_neg hc]

/-- C7: the initialization state machine is terminal.  Over any `Run` cycle,
at most one initialization completes — none at all once the filter is already
initialized — and the flag after the cycle is exactly the flag before joined
with whether an initialization completed during the cycle: it starts `false`
and stays `false` until the one initialization, which flips it to `true`, and
no later operation of the flow or filter ever returns it to `false`. -/
theorem C7_init_terminal (env : Env) (input : RunInput) (fuel : ℕ)
    (s : FlowState) :
    countInit (Run env input fuel s).events ≤
      (if HasInited s = true then 0 else 1) ∧
    HasInited (Run env input fuel s).state =
      (HasInited s ||
        decide (0 < countInit (Run env input fuel s).events)) := by
  by_cases hc : (InitCalibration input.lookup s).1 = true
  · rw [Run_gate_true env input fuel s hc]
    have hG : countInit (if input.publish_global_map then [Event.globalMap]
        else []) = 0 := by split_ifs <;> rfl
    have hL : countInit (if input.publish_local_map then [Event.localMap]
        else []) = 0 := by split_ifs <;> rfl
    have hfil : HasInited (ReadData input (InitCalibration input.lookup s).2) =
        HasInited s := by
      simp only [HasInited, ReadData]
      rw [InitCalibration_filter]
    have hloop := runLoop_initCount env fuel
      (ReadData input (InitCalibration input.lookup s).2)
    rw [hfil] at hloop
    rw [countInit_append, countInit_append, hG, hL]
    constructor
    · simpa using hloop.1
    · simpa using hloop.2
  · rw [Run_gate_false env input fuel s hc]
    have hfil : (InitCalibration input.lookup s).2.filter = s.filter :=
      InitCalibration_filter input.lookup s
    constructor
    · simp [countInit_nil]
    · simp only [HasInited, hfil, countInit_nil]
      simp

/-- C8: the raw correction-frame (laser) pose is published by every
correction step, whether or not the ESKF correction succeeds; when the
correction reports failure the fused-odometry publish is skipped for that
correction and the nominal filter state stays at its propagated value (so
subsequent fused output continues from it); and a `Run` cycle's verdict
depends only on the calibration gate — a correction failure never fails or
terminates the cycle. -/
theorem C8_correction_nonfatal (env : Env) (s : FlowState) :
    Event.laserOdom s.current_cloud_data.time ∈
      (CorrectLocalization env s).events ∧
    (CorrectLocalization env s).ok =
      (env.correct s.filter s.current_imu_synced_data
        s.current_cloud_data).ok ∧
    ((CorrectLocalization env s).ok = false →
       (CorrectLocalization env s).state.filter = s.filter ∧
       ∀ q, Event.fusedOdom q ∉ (CorrectLocalization env s).events) ∧
    (∀ (input : RunInput) (fuel : ℕ) (s' : FlowState),
       (Run env input fuel s').ok = (InitCalibration input.lookup s').1) := by
  refine ⟨?_, ?_, ?_, ?_⟩
  · simp only [CorrectLocalization]
    split_ifs <;> simp
  · simp only [CorrectLocalization]
    split_ifs with h
    · exact h.symm
    · simp only [Bool.not_eq_true] at h
      exact h.symm
  · intro hok
    by_cases h : (env.correct s.filter s.current_imu_synced_data
        s.current_cloud_data).ok = true
    · exfalso
      have hne : (CorrectLocalization env s).ok = true := by
        simp only [CorrectLocalization]
        rw [if_pos h]
      rw [hne] at hok
      cases hok
    · have hres : CorrectLocalization env s =
          ⟨false,
           { s with laser_pose := (env.correct s.filter
               s.current_imu_synced_data s.current_cloud_data).laser_pose },
           [Event.laserOdom s.current_cloud_data.time,
            Event.currentScan]⟩ := by
        simp only [CorrectLocalization]
        rw [if_neg h]
      rw [hres]
      exact ⟨rfl, by intro q; simp⟩
  · intro input fuel s'
    by_cases hc : (InitCalibration input.lookup s').1 = true
    · rw [Run_gate_true env input fuel s' hc]
      exact hc.symm
    · rw [Run_gate_false env input fuel s' hc]
      simp only [Bool.not_eq_true] at hc
      exact hc.symm

theorem C8_witness :
    (CorrectLocalization envFail sC8).ok = false ∧
    Event.laserOdom sC8.current_cloud_data.time ∈
      (CorrectLocalization envFail sC8).events ∧
    (CorrectLocalization envFail sC8).state.filter = sC8.filter ∧
    ∀ q, Event.fusedOdom q ∉ (CorrectLocalization envFail sC8).events := by
  have h := C8_correction_nonfatal envFail sC8
  have hok : (CorrectLocalization envFail sC8).ok = false := by
    rw [h.2.1]
    rfl
  exact ⟨hok, h.1, (h.2.2.1 hok).1, (h.2.2.1 hok).2⟩

/-- C9: while the calibration transform is unresolved, a `Run` cycle with a
still-failing lookup returns `false` with the state untouched and nothing
published or drained; the lookup is retried each cycle, and the first
successful lookup caches the transform and sets the received flag; once the
flag is set, every cycle passes the gate, the cached transform never changes,
and the cycle's outcome no longer depends on the lookup at all. -/
theorem C9_calibration_gate (env : Env) (input : RunInput) (fuel : ℕ)
    (s : FlowState) :
    (s.calibration_received = false → input.lookup = none →
       Run env input fuel s = ⟨false, s, []⟩) ∧
    (∀ p, s.calibration_received = false → input.lookup = some p →
       (Run env input fuel s).ok = true ∧
       (Run env input fuel s).state.calibration_received = true ∧
       (Run env input fuel s).state.lidar_to_imu = p) ∧
    (s.calibration_received = true →
       (Run env input fuel s).ok = true ∧
       (Run env input fuel s).state.calibration_received = true ∧
       (Run env input fuel s).state.lidar_to_imu = s.lidar_to_imu ∧
       ∀ lk, Run env { input with lookup := lk } fuel s =
         Run env input fuel s) := by
  refine ⟨?_, ?_, ?_⟩
  · intro hrec hlk
    have hic : InitCalibration input.lookup s = (false, s) := by
      simp [InitCalibration, hrec, hlk]
    have hc : ¬ ((InitCalibration input.lookup s).1 = true) := by
      rw [hic]
      simp
    rw [Run_gate_false env input fuel s hc, hic]
  · intro p hrec hlk
    have hic : InitCalibration input.lookup s =
        (true, { s with calibration_received := true, lidar_to_imu := p }) := by
      simp [InitCalibration, hrec, hlk]
    have hc : (InitCalibration input.lookup s).1 = true := by
      rw [hic]
    rw [Run_gate_true env input fuel s hc, hic]
    refine ⟨rfl, ?_, ?_⟩
    · rw [runLoop_cal]
      rfl
    · rw [runLoop_l2i]
      rfl
  · intro hrec
    have hic : ∀ lk, InitCalibration lk s = (true, s) := by
      intro lk
      simp [InitCalibration, hrec]
    have hc : (InitCalibration input.lookup s).1 = true := by
      rw [hic]
    refine ⟨?_, ?_, ?_, ?_⟩
    · rw [Run_gate_true env input fuel s hc]
    · rw [Run_gate_true env input fuel s hc, hic]
      rw [runLoop_cal]
      exact hrec
    · rw [Run_gate_true env input fuel s hc, hic]
      rw [runLoop_l2i]
      rfl
    · intro lk
      have hc2 : (InitCalibration ({ input with lookup := lk } :
          RunInput).lookup s).1 = true := by
        rw [hic]
      rw [Run_gate_true env { input with lookup := lk } fuel s hc2,
          Run_gate_true env input fuel s hc]
      rw [hic, hic]
      have hrd : ReadData { input with lookup := lk } s = ReadData input s :=
        rfl
      simp [hrd]

theorem C9_witness :
    sC9.calibration_received = false ∧
    Run env0 input0 3 sC9 = ⟨false, sC9, []⟩ ∧
    ((Run env0 inputSome 3 sC9).ok = true ∧
     (Run env0 inputSome 3 sC9).state.calibration_received = true ∧
     (Run env0 inputSome 3 sC9).state.lidar_to_imu = poseT) :=
  ⟨rfl, (C9_calibration_gate env0 input0 3 sC9).1 rfl rfl,
   (C9_calibration_gate env0 inputSome 3 sC9).2.1 poseT rfl rfl⟩

end SensorFusion
